import Mathlib

/-!
Shallow embedding of the Air-Quality-Health-Alert-System dashboard
(`src/App.jsx`): JavaScript value coercions, the AQI value deriver, the
advisory-tier table, the alert cooldown/dedup mechanism, the reading
orchestration step, the city-ranking aggregator, the proximity-gated
reverse-geocode cache, and the IP-fallback single-flight guard.

JavaScript numbers are modelled as exact rationals plus NaN and the two
infinities.  Times (`Date.now()`) are modelled as integers (milliseconds).
Asynchronous collaborators (HTTP responses, the geocoder, the notification
channel, Firestore) are passed in as explicit parameters, and the one
reading cycle is a pure state-transition function that also emits the
ordered list of its side effects.
-/

namespace AirQuality

/-- A JavaScript number: a finite (exact) rational, NaN, or an infinity. -/
inductive JsNumber where
  | finite (q : ℚ)
  | nan
  | inf
  | negInf
deriving Repr, DecidableEq

/-- A JavaScript value as it can appear in the provider payload fields the
dashboard reads (`data.aqi`, `iaqi[key].v`). -/
inductive JsVal where
  | num (x : JsNumber)
  | str (s : String)
  | nullV
  | undefV
  | boolV (b : Bool)
deriving Repr, DecidableEq

/-- Digits of a decimal string, most significant first; `none` when a
character is not a digit.  The empty list gives `some 0` and callers check
non-emptiness themselves. -/
def decDigits : List Char → Option ℕ
  | [] => some 0
  | c :: cs =>
    if c.isDigit then
      match decDigits cs with
      | some rest => some ((c.toNat - 48) * 10 ^ cs.length + rest)
      | none => none
    else none

/-- Parse an optionally signed decimal literal (`-12`, `+3.5`, `.5`, `7.`) as
an exact rational.  Exponent and hex forms are outside the modelled payload
space.  Mirrors the grammar `Number` accepts for plain decimal strings. -/
def parseJsDecimal (t : String) : Option ℚ :=
  let (sgn, rest) :=
    match t.toList with
    | '-' :: cs => ((-1 : ℤ), cs)
    | '+' :: cs => ((1 : ℤ), cs)
    | cs => ((1 : ℤ), cs)
  match (rest.splitOn '.').map decDigits with
  | [some ip] => if rest.isEmpty then none else some ((sgn * ip : ℤ) : ℚ)
  | [some ip, some fp] =>
    let flen := (rest.dropWhile (· ≠ '.')).length - 1
    if rest.length ≤ 1 then none
    else some (mkRat (sgn * (ip * 10 ^ flen + fp)) (10 ^ flen))
  | _ => none

/-- `Number(s)` for a string `s`: trimmed-empty coerces to `0`, a decimal
literal to its value, `Infinity` forms to the infinities, anything else to
NaN. -/
def jsStrToNumber (s : String) : JsNumber :=
  let t := s.trim
  if t = "" then .finite 0
  else if t = "Infinity" ∨ t = "+Infinity" then .inf
  else if t = "-Infinity" then .negInf
  else
    match parseJsDecimal t with
    | some q => .finite q
    | none => .nan

/-- `Number(v)` coercion for the payload values above: `null ↦ 0`,
`undefined ↦ NaN`, booleans to `0/1`, strings through `jsStrToNumber`. -/
def jsToNumber : JsVal → JsNumber
  | .num x => x
  | .str s => jsStrToNumber s
  | .nullV => .finite 0
  | .undefV => .nan
  | .boolV b => .finite (if b then 1 else 0)

/-- `Math.round q` as JavaScript computes it on the exact rational:
round-half-up, i.e. `⌊q + 1/2⌋`, written on numerator and denominator so
that it evaluates by kernel reduction. -/
def jsRound (q : ℚ) : ℤ := (2 * q.num + (q.den : ℤ)).fdiv (2 * (q.den : ℤ))

/-- `Math.round (q / 5)` (the alert-signature bucket) on the exact rational:
`⌊q/5 + 1/2⌋`, written on numerator and denominator. -/
def jsRoundDiv5 (q : ℚ) : ℤ :=
  (2 * q.num + 5 * (q.den : ℤ)).fdiv (10 * (q.den : ℤ))

/-- The numerator identity `(q.num : ℚ) = q * q.den` used to rewrite the
rounding formulas. -/
theorem ratNum_eq_mul_den (q : ℚ) : (q.num : ℚ) = q * (q.den : ℚ) := by
  have hden0 : ((q.den : ℚ)) ≠ 0 := by
    have := q.den_nz
    exact_mod_cast this
  have h := Rat.num_div_den q
  rw [div_eq_iff hden0] at h
  exact h

/-- `Math.round q` agrees with `⌊q + 1/2⌋`. -/
theorem jsRound_eq_floor (q : ℚ) : jsRound q = ⌊q + 1 / 2⌋ := by
  have hnum := ratNum_eq_mul_den q
  have harg : q + 1 / 2 =
      ((2 * q.num + (q.den : ℤ) : ℤ) : ℚ) / ((2 * q.den : ℕ) : ℚ) := by
    rw [eq_div_iff (by positivity)]
    push_cast
    linear_combination (-2 : ℚ) * hnum
  rw [harg, Rat.floor_intCast_div_natCast, jsRound,
    Int.fdiv_eq_ediv _ (by positivity)]
  norm_num

/-- The bucket formula agrees with `⌊q/5 + 1/2⌋`, the mathematical reading
of `Math.round(q / 5)`. -/
theorem jsRoundDiv5_eq_floor (q : ℚ) : jsRoundDiv5 q = ⌊q / 5 + 1 / 2⌋ := by
  have hnum := ratNum_eq_mul_den q
  have harg : q / 5 + 1 / 2 =
      ((2 * q.num + 5 * (q.den : ℤ) : ℤ) : ℚ) / ((10 * q.den : ℕ) : ℚ) := by
    rw [eq_div_iff (by positivity)]
    push_cast
    linear_combination (-2 : ℚ) * hnum
  rw [harg, Rat.floor_intCast_div_natCast, jsRoundDiv5,
    Int.fdiv_eq_ediv _ (by positivity)]
  norm_num

/-- A JSON-ish value as the station metadata coordinate fields can carry it
(`city.geo` / `city.location`): number, string, array, or an object read
only at its `lat`, `lng` and `lon` keys (absent keys are `undefV`).
Nested arrays/objects coerce to NaN under `Number` in this model. -/
inductive JsData where
  | num (x : JsNumber)
  | str (s : String)
  | arr (elems : List JsData)
  | obj (lat lng lon : JsData)
  | nullV
  | undefV
  | boolV (b : Bool)

/-- `Number(v)` for the structured values above. -/
def jsDataToNumber : JsData → JsNumber
  | .num x => x
  | .str s => jsStrToNumber s
  | .nullV => .finite 0
  | .undefV => .nan
  | .boolV b => .finite (if b then 1 else 0)
  | .arr _ => .nan
  | .obj _ _ _ => .nan

/-- JavaScript truthiness of a structured value (`!value`): `0`, NaN, the
empty string, `null`, `undefined` and `false` are falsy; arrays and objects
are always truthy. -/
def jsDataFalsy : JsData → Bool
  | .num (.finite q) => q = 0
  | .num .nan => true
  | .num .inf => false
  | .num .negInf => false
  | .str s => s = ""
  | .nullV => true
  | .undefV => true
  | .boolV b => !b
  | .arr _ => false
  | .obj _ _ _ => false

/-- `value == null` in the nullish-coalescing sense (`??`). -/
def jsDataNullish : JsData → Bool
  | .nullV => true
  | .undefV => true
  | _ => false

/-- `a || b` over structured values. -/
def jsDataOr (a b : JsData) : JsData := if jsDataFalsy a then b else a

/-- A latitude/longitude pair, in decimal degrees. -/
structure Coords where
  lat : ℚ
  lng : ℚ
deriving Repr, DecidableEq

/-- The local `toNumber` helper of `parseStationCoordinates`: `Number(input)`
kept only when finite (`null` otherwise). -/
def stationToNumber (v : JsData) : Option ℚ :=
  match jsDataToNumber v with
  | .finite q => some q
  | _ => none

/-- `parseStationCoordinates` (`App.jsx` lines 21-52): tolerant parser for a
station's coordinates.  Accepts a two-element array, a comma/space-delimited
string of two numbers, or an object with `lat` and `lng`-or-`lon` keys;
yields `none` on anything else (never throws). -/
def parseStationCoordinates (value : JsData) : Option Coords :=
  if jsDataFalsy value then none
  else
    match value with
    | .arr xs =>
      if xs.length ≥ 2 then
        match stationToNumber (xs.getD 0 .undefV), stationToNumber (xs.getD 1 .undefV) with
        | some lat, some lng => some ⟨lat, lng⟩
        | _, _ => none
      else none
    | .str s =>
      let parts := (s.split fun c => c = ',' ∨ c = ' ').filter (· ≠ "")
      if parts.length ≥ 2 then
        match stationToNumber (.str (parts.getD 0 "")),
              stationToNumber (.str (parts.getD 1 "")) with
        | some lat, some lng => some ⟨lat, lng⟩
        | _, _ => none
      else none
    | .obj lat lng lon =>
      match stationToNumber lat,
            stationToNumber (if jsDataNullish lng then lon else lng) with
      | some la, some ln => some ⟨la, ln⟩
      | _, _ => none
    | _ => none

/-- Station metadata (`data.city`): display name (empty string when absent,
both being falsy in the source), and the raw `geo` / `location` coordinate
fields. -/
structure CityMeta where
  name : String
  geo : JsData
  location : JsData

/-- A provider payload (`res.data.data`): raw `aqi` field, the `iaqi`
sub-indicator table (each entry holding the slot's `.v` value; an absent
table or key reads as `undefined`), station metadata, and the observation
timestamp `time.s` (`none` when absent). -/
structure StationData where
  aqi : JsVal
  iaqi : Option (List (String × JsVal))
  city : Option CityMeta
  timeS : Option String

/-- `stationData?.iaqi?.[key]?.v`. -/
def iaqiV (iaqi : Option (List (String × JsVal))) (key : String) : JsVal :=
  match iaqi with
  | none => .undefV
  | some l =>
    match l.lookup key with
    | some v => v
    | none => .undefV

/-- A provider HTTP response (`res.data`): status flag plus payload. -/
structure ApiResponse where
  status : String
  data : StationData

/-- `FALLBACK_IAQI_KEYS` (`App.jsx` line 10): pollutant sub-indicators in
priority order. -/
def FALLBACK_IAQI_KEYS : List String := ["pm25", "pm10", "o3", "no2", "so2", "co"]

/-- The fallback scan of `deriveAqiValue`: first `iaqi` entry (in
`FALLBACK_IAQI_KEYS` order) whose `.v` is a finite number — a `typeof`
check, so numeric strings are skipped — rounded with `Math.round`. -/
def iaqiFallbackScan (iaqi : Option (List (String × JsVal))) : Option ℚ :=
  FALLBACK_IAQI_KEYS.findSome? fun key =>
    match iaqiV iaqi key with
    | .num (.finite q) => some ((jsRound q : ℤ) : ℚ)
    | _ => none

/-- `deriveAqiValue` (`App.jsx` lines 54-67): the direct `aqi` field when
`Number(raw)` is finite and strictly positive, otherwise the fallback scan,
otherwise `none`.  Total by construction — the source never throws here. -/
def deriveAqiValue (d : StationData) : Option ℚ :=
  match jsToNumber d.aqi with
  | .finite q => if 0 < q then some q else iaqiFallbackScan d.iaqi
  | _ => iaqiFallbackScan d.iaqi

/-- `healthAdvice` (`App.jsx` lines 71-83): advisory text, prevention text
and display color for a reading, with inclusive upper tier bounds. -/
def healthAdvice (aqiValue : ℚ) : String × String × String :=
  if aqiValue ≤ 50 then
    ("Air quality is good. No precautions needed.", "Stay active outdoors.", "#2ecc71")
  else if aqiValue ≤ 100 then
    ("Moderate air quality. Sensitive groups should take caution.",
      "Limit prolonged outdoor activity if you have respiratory issues.", "#f1c40f")
  else if aqiValue ≤ 150 then
    ("Unhealthy for sensitive groups.", "Reduce outdoor activity. Use mask if needed.", "#e67e22")
  else if aqiValue ≤ 200 then
    ("Unhealthy.", "Avoid outdoor activity. People with health issues should stay indoors.", "#e74c3c")
  else if aqiValue ≤ 300 then
    ("Very Unhealthy.", "Stay indoors. Wear N95 masks if you go outside.", "#8e44ad")
  else
    ("Hazardous!", "Avoid all outdoor activity. Keep windows closed.", "#34495e")

/-- `ALERT_COOLDOWN_MS` (`App.jsx` line 19): five minutes, in milliseconds. -/
def ALERT_COOLDOWN_MS : ℤ := 5 * 60 * 1000

/-- `lastAlertRef.current` (`App.jsx` line 126): time of the last confirmed
delivery and its signature.  Initially `{ timestamp: 0, signature: null }`. -/
structure CooldownState where
  timestamp : ℤ
  signature : Option String
deriving Repr, DecidableEq

/-- The initial cooldown state. -/
def initialCooldown : CooldownState := ⟨0, none⟩

/-- `pushNotification` (`App.jsx` lines 220-236) as a function of the
ambient permission status, the clock, the delivery channel (`channelOk` is
whether `new Notification` succeeds; on failure the exception is caught) and
the cooldown state.  Returns whether delivery was confirmed together with
the updated cooldown state.  `title` and `body` only feed the displayed
notification (and the default signature `title-body`, which the caller in
`fetchAqi` always overrides with an explicit signature). -/
def pushNotification (notificationStatus : String) (now : ℤ) (channelOk : Bool)
    (_title _body sig : String) (st : CooldownState) : Bool × CooldownState :=
  if notificationStatus ≠ "granted" then (false, st)
  else if ¬(now - st.timestamp > ALERT_COOLDOWN_MS) ∧ st.signature = some sig then
    (false, st)
  else if channelOk then (true, ⟨now, some sig⟩)
  else (false, st)

/-- An entry of the bounded alert log (`App.jsx` lines 303-309). -/
structure AlertRecord where
  id : String
  label : String
  aqi : ℚ
  observedAt : String
  threshold : ℚ
deriving Repr, DecidableEq

/-- The alert signature (`App.jsx` line 295): place label joined with the
reading bucketed by `Math.round(value / 5)`. -/
def alertSignature (label : String) (aqiValue : ℚ) : String :=
  label ++ "-" ++ toString (jsRoundDiv5 aqiValue)

/-- The alert-log entry built on confirmed delivery (`App.jsx` lines
303-309); `id` is `Date.now()-label`. -/
def mkAlertRecord (now : ℤ) (label : String) (aqiValue : ℚ)
    (observedAt : String) (threshold : ℚ) : AlertRecord :=
  ⟨toString now ++ "-" ++ label, label, aqiValue, observedAt, threshold⟩

/-- The alert phase of one reading cycle (`App.jsx` lines 294-313): when the
reading is at or above the threshold, attempt delivery under the
cooldown/signature rule, and only on confirmed delivery prepend an
`AlertRecord` and trim the log to five entries.  Returns
`(notified, cooldown, alertLog)`. -/
def alertStep (notificationStatus : String) (threshold : ℚ) (channelOk : Bool)
    (now : ℤ) (label : String) (aqiValue : ℚ) (adviceText observedAt : String)
    (la : CooldownState) (log : List AlertRecord) :
    Bool × CooldownState × List AlertRecord :=
  if aqiValue ≥ threshold then
    let sig := alertSignature label aqiValue
    let body := label ++ " AQI is " ++ toString aqiValue ++ ". " ++ adviceText
    let pushed := pushNotification notificationStatus now channelOk "AQI Alert" body sig la
    if pushed.1 then
      (true, pushed.2, (mkAlertRecord now label aqiValue observedAt threshold :: log).take 5)
    else (false, pushed.2, log)
  else (false, la, log)

/-- Run a sequence of same-place readings through the alert phase, with the
delivery channel healthy, threading the cooldown state and the alert log;
collects the delivery outcomes in order. -/
def runAlertReadings (notificationStatus : String) (threshold : ℚ) (label : String)
    (observedAt : String) (readings : List (ℤ × ℚ)) (la : CooldownState)
    (log : List AlertRecord) : List Bool × CooldownState × List AlertRecord :=
  match readings with
  | [] => ([], la, log)
  | (t, v) :: rest =>
    let (n, la', log') :=
      alertStep notificationStatus threshold true t label v (healthAdvice v).1 observedAt la log
    let (ns, laF, logF) := runAlertReadings notificationStatus threshold label observedAt rest la' log'
    (n :: ns, laF, logF)

/-- `x.toFixed(d)` for a rational: sign of the value, then the absolute
value scaled by `10^d` and rounded half-up, rendered with the fraction part
padded to `d` digits. -/
def jsToFixed (d : ℕ) (q : ℚ) : String :=
  let scaled : ℤ := (2 * 10 ^ d * |q.num| + (q.den : ℤ)).fdiv (2 * (q.den : ℤ))
  let whole := scaled.toNat / 10 ^ d
  let frac := scaled.toNat % 10 ^ d
  let fracStr := toString frac
  let padded := String.mk (List.replicate (d - fracStr.length) '0') ++ fracStr
  (if q < 0 then "-" else "") ++ toString whole ++
    (if d = 0 then "" else "." ++ padded)

/-- An entry of the bounded reading history (`App.jsx` lines 330-338). -/
structure HistoryEntry where
  id : String
  label : String
  aqi : ℚ
  observedAt : String
deriving Repr, DecidableEq

/-- The component state that `fetchAqi` reads and writes: the manual city
input, the displayed reading and advisory fields, the bounded history, the
location state, the alert state, and the chart data (the AQI series of the
trend chart and the label/value pairs of the pollutant chart; axis labels
and colors are presentation only).  `location` also stands for
`locationRef.current`, which mirrors it through the sync effect at
`App.jsx` lines 152-154. -/
structure AppState where
  city : String
  aqi : Option ℚ
  advice : String
  prevention : String
  color : String
  history : List HistoryEntry
  lastUpdated : String
  location : Option Coords
  locationStatus : String
  locationLabel : String
  lastAlert : CooldownState
  alertLog : List AlertRecord
  alertThreshold : ℚ
  notificationStatus : String
  chartData : Option (List ℚ)
  pollutantChart : Option (List (String × ℚ))
deriving Repr, DecidableEq

/-- The options object of `fetchAqi` (`App.jsx` line 239). -/
structure FetchOptions where
  source : String
  forceLocation : Bool
  geoOverride : Option Coords

/-- The collaborators and nondeterministic inputs of one `fetchAqi` call:
the provider response (`none` when the HTTP call throws), the clock, the
formatted current date, the random seed series of the trend chart, the
random suffix of the history id, and whether the notification channel and
the Firestore write succeed. -/
structure FetchEnv where
  response : Option ApiResponse
  now : ℤ
  nowString : String
  randomSeries : List ℚ
  randId : String
  channelOk : Bool
  persistOk : Bool

/-- The observable effects of one `fetchAqi` call, in program order:
user-facing alerts, value derivation, the advisory/display updates, the
manual announcement, the alert evaluation, the awaited Firestore write, the
history append and the chart updates. -/
inductive FetchEvent where
  | promptAlert
  | errorAlert
  | notFoundAlert
  | unavailableAlert
  | derived (v : Option ℚ)
  | displayUpdated
  | announce
  | alertEvaluated (notified : Bool)
  | persistWrite (ok : Bool)
  | historyAppend
  | chartUpdate
deriving Repr, DecidableEq

/-- `shouldUseGeo` (`App.jsx` line 241): forced coordinates, or no manual
city entered. -/
def fetchShouldUseGeo (opts : FetchOptions) (st : AppState) : Bool :=
  opts.forceLocation || st.city = ""

/-- `geoTarget` (`App.jsx` line 242): the override, else the last known
resolved coordinates. -/
def fetchGeoTarget (opts : FetchOptions) (st : AppState) : Option Coords :=
  match opts.geoOverride with
  | some c => some c
  | none => st.location

/-- `a || b` for an optional string, where both absence and the empty
string are falsy. -/
def orFalsyStr (a : Option String) (b : String) : String :=
  match a with
  | some s => if s = "" then b else s
  | none => b

/-- The display name of the station (`stationMeta?.name`), `none` when the
metadata or the name is missing or empty (both falsy). -/
def cityMetaName : Option CityMeta → Option String
  | some m => if m.name = "" then none else some m.name
  | none => none

/-- `buildPollutantChart` (`App.jsx` lines 87-107) reduced to its data:
label/value pairs for the six pollutant keys whose
`Number(iaqi?.[key]?.v ?? NaN)` is finite, `none` when `iaqi` is absent or
no entry qualifies.  The palette colors are presentation only. -/
def buildPollutantChart (iaqi : Option (List (String × JsVal))) :
    Option (List (String × ℚ)) :=
  match iaqi with
  | none => none
  | some _ =>
    let keys := ["pm25", "pm10", "no2", "o3", "so2", "co"]
    let entries := keys.filterMap fun key =>
      let v := iaqiV iaqi key
      let coerced :=
        match v with
        | .nullV => JsNumber.nan
        | .undefV => JsNumber.nan
        | _ => jsToNumber v
      match coerced with
      | .finite q => some (key.toUpper, q)
      | _ => none
    if entries = [] then none else some entries

/-- The station's raw coordinate field: `stationMeta?.geo ||
stationMeta?.location` (`App.jsx` line 272). -/
def stationGeoField : Option CityMeta → JsData
  | some m => jsDataOr m.geo m.location
  | none => jsDataOr .undefV .undefV

/-- `fetchAqi` (`App.jsx` lines 238-364) as a state-transition function:
given the call options, the collaborator outcomes and the component state,
produce the next state and the ordered effect trace.  Mirrors the source
line by line: guard clauses, provider-status check, value derivation,
display updates, city-mode location update, manual announcement, alert
phase, awaited best-effort Firestore write (failure caught and swallowed),
history append, then chart updates. -/
def fetchAqiStep (opts : FetchOptions) (env : FetchEnv) (st : AppState) :
    AppState × List FetchEvent :=
  let shouldUseGeo := fetchShouldUseGeo opts st
  let geoTarget := fetchGeoTarget opts st
  if shouldUseGeo && geoTarget.isNone then
    (st, if opts.source = "manual" then [.promptAlert] else [])
  else if !shouldUseGeo && decide (st.city = "") then
    (st, [.promptAlert])
  else
    match env.response with
    | none => (st, [.errorAlert])
    | some res =>
      if res.status ≠ "ok" then (st, [.notFoundAlert])
      else
        match deriveAqiValue res.data with
        | none => (st, [.derived none, .unavailableAlert])
        | some aqiValue =>
          let stationMeta := res.data.city
          let observedAt := orFalsyStr res.data.timeS env.nowString
          let stationCoords := parseStationCoordinates (stationGeoField stationMeta)
          let derivedLabel :=
            if !shouldUseGeo && decide (st.city.trim ≠ "") then st.city.trim
            else
              match cityMetaName stationMeta with
              | some nm => nm
              | none =>
                match geoTarget with
                | some g => "Lat " ++ jsToFixed 2 g.lat ++ ", Lng " ++ jsToFixed 2 g.lng
                | none => "Your location"
          let adv := healthAdvice aqiValue
          let st1 : AppState :=
            { st with
              aqi := some aqiValue
              lastUpdated := observedAt
              advice := adv.1
              prevention := adv.2.1
              color := adv.2.2
              locationLabel := derivedLabel }
          let st2 : AppState :=
            if !shouldUseGeo then
              { st1 with
                location := match stationCoords with
                  | some c => some c
                  | none => st1.location
                locationStatus := "City lookup" }
            else st1
          let announceEvents : List FetchEvent :=
            if opts.source = "manual" then [.announce] else []
          let alerted :=
            alertStep st.notificationStatus st.alertThreshold env.channelOk env.now
              derivedLabel aqiValue adv.1 observedAt st2.lastAlert st2.alertLog
          let st3 : AppState := { st2 with lastAlert := alerted.2.1, alertLog := alerted.2.2 }
          let st4 : AppState :=
            { st3 with
              history :=
                ({ id := toString env.now ++ "-" ++ env.randId
                   label := derivedLabel
                   aqi := aqiValue
                   observedAt := observedAt } :: st3.history).take 6 }
          let st5 : AppState :=
            { st4 with
              chartData := some (env.randomSeries ++ [aqiValue])
              pollutantChart := buildPollutantChart res.data.iaqi }
          (st5,
            [.derived (some aqiValue), .displayUpdated] ++ announceEvents ++
              [.alertEvaluated alerted.1, .persistWrite env.persistOk,
               .historyAppend, .chartUpdate])

/-- `CITY_RANKING_CANDIDATES` (`App.jsx` line 11). -/
def CITY_RANKING_CANDIDATES : List String :=
  ["Delhi", "Mumbai", "Bengaluru", "Chennai", "Kolkata", "Hyderabad"]

/-- One row of the city ranking (`App.jsx` lines 180-185): display label,
candidate name, and the derived value (`none` on provider error — the
thrown `City unavailable` is caught per city — or when no value can be
derived). -/
structure RankingEntry where
  label : String
  city : String
  aqi : Option ℚ
deriving Repr, DecidableEq

/-- The per-candidate fetch of `fetchCityRankings` (`App.jsx` lines
173-187): a failed request or a non-`ok` status is caught locally and
yields an absent value; otherwise the label comes from the station metadata
(falling back to the candidate name) and the value from `deriveAqiValue`. -/
def rankCity (fetch : String → Option ApiResponse) (cityName : String) : RankingEntry :=
  match fetch cityName with
  | none => ⟨cityName, cityName, none⟩
  | some res =>
    if res.status ≠ "ok" then ⟨cityName, cityName, none⟩
    else ⟨orFalsyStr (cityMetaName res.data.city) cityName, cityName, deriveAqiValue res.data⟩

/-- The sort key of a ranked entry (entries reaching the sort always carry
a value). -/
def rankingValue (e : RankingEntry) : ℚ :=
  match e.aqi with
  | some q => q
  | none => 0

/-- `fetchCityRankings` (`App.jsx` lines 168-200): fetch every candidate
independently, keep only the entries with a present value, and sort them
ascending by value (`(a, b) => a.aqi - b.aqi`). -/
def fetchCityRankings (fetch : String → Option ApiResponse)
    (candidates : List String) : List RankingEntry :=
  let ranked := candidates.map (rankCity fetch)
  (ranked.filter fun e => e.aqi ≠ none).mergeSort fun a b =>
    decide (rankingValue a ≤ rankingValue b)

/-- The cached `(coords, label)` pair of the reverse-geocode effect
(`lastResolvedPlacenameRef`, `App.jsx` line 134). -/
structure PlacenameCache where
  lat : ℚ
  lng : ℚ
  label : String
deriving Repr, DecidableEq

/-- The outcome of one reverse-geocode attempt: the Maps collaborator not
loaded at all, a successful geocode (`status OK` with a first result whose
`formatted_address` may still be missing/empty, i.e. `none`), or a failed
geocode (non-OK status or no result). -/
inductive GeoOutcome where
  | unavailable
  | ok (formatted : Option String)
  | failed
deriving Repr, DecidableEq

/-- The coordinate-formatted fallback label
(`lat.toFixed(4), lng.toFixed(4)`). -/
def coordFallbackLabel (c : Coords) : String :=
  jsToFixed 4 c.lat ++ ", " ++ jsToFixed 4 c.lng

/-- The result of one run of the reverse-geocode effect: the new cache, the
label written to `locationLabel`, and whether the external geocoder was
invoked. -/
structure PlacenameResult where
  cache : Option PlacenameCache
  label : String
  externalCall : Bool
deriving Repr, DecidableEq

/-- The cache-miss path of the reverse-geocode effect (`fetchPlacename`,
`App.jsx` lines 598-631): with the collaborator unavailable the
coordinate-formatted fallback label is cached without any external call; otherwise
the geocoder is invoked, and both the success and the failure outcome cache
what they display. -/
def resolvePlacenameFresh (c : Coords) (geo : GeoOutcome) : PlacenameResult :=
  match geo with
  | .unavailable =>
    ⟨some ⟨c.lat, c.lng, coordFallbackLabel c⟩, coordFallbackLabel c, false⟩
  | .ok formatted =>
    let lbl := orFalsyStr formatted (coordFallbackLabel c)
    ⟨some ⟨c.lat, c.lng, lbl⟩, lbl, true⟩
  | .failed =>
    ⟨some ⟨c.lat, c.lng, coordFallbackLabel c⟩, coordFallbackLabel c, true⟩

/-- One run of the reverse-geocode effect (`App.jsx` lines 576-636): no
location resets the cache; a cached pair within `0.001°` on both axes is
reused with no external call; otherwise the fresh path runs. -/
def resolvePlacename (loc : Option Coords) (geo : GeoOutcome)
    (cache : Option PlacenameCache) : PlacenameResult :=
  match loc with
  | none => ⟨none, "Awaiting live location…", false⟩
  | some c =>
    match cache with
    | some prev =>
      if |prev.lat - c.lat| < 1 / 1000 ∧ |prev.lng - c.lng| < 1 / 1000 then
        ⟨some prev, prev.label, false⟩
      else resolvePlacenameFresh c geo
    | none => resolvePlacenameFresh c geo

/-- The state read and written by `resolveApproximateLocation`: the
single-flight guard (`ipFallbackTriggeredRef`) and the location fields. -/
structure IpState where
  guard : Bool
  location : Option Coords
  locationStatus : String
  locationLabel : String
deriving Repr, DecidableEq

/-- The outcome of one IP-geolocation attempt: success with finite
coordinates and the already-filtered label parts (`[city, region,
country_name].filter(Boolean)`), or any failure (HTTP error or non-finite
coordinates, both reaching the catch block). -/
inductive IpOutcome where
  | ok (lat lng : ℚ) (parts : List String)
  | failed
deriving Repr, DecidableEq

/-- `resolveApproximateLocation` (`App.jsx` lines 366-389): skip when the
single-flight guard is set and the call is not forced; otherwise set the
guard on entry, and on failure only, reset it in the catch block.  The
success path also triggers a forced reading cycle, outside this state
model.  Returns the new state and whether the fallback actually ran. -/
def resolveApproximateLocation (force : Bool) (outcome : IpOutcome)
    (defaultLoc : Coords) (st : IpState) : IpState × Bool :=
  if st.guard && !force then (st, false)
  else
    match outcome with
    | .ok lat lng parts =>
      ({ guard := true
         location := some ⟨lat, lng⟩
         locationStatus := "Approximate via network"
         locationLabel :=
           if String.intercalate ", " parts = "" then
             jsToFixed 2 lat ++ ", " ++ jsToFixed 2 lng
           else String.intercalate ", " parts }, true)
    | .failed =>
      ({ st with
         guard := false
         locationStatus := "Enter a city to start"
         locationLabel :=
           "Fallback • " ++ jsToFixed 2 defaultLoc.lat ++ ", " ++ jsToFixed 2 defaultLoc.lng },
        true)

/-- Run a sequence of fallback invocations `(force, outcome)` in order,
collecting whether each one ran. -/
def runApproximateCalls (calls : List (Bool × IpOutcome)) (defaultLoc : Coords)
    (st : IpState) : IpState × List Bool :=
  match calls with
  | [] => (st, [])
  | (f, o) :: rest =>
    ((runApproximateCalls rest defaultLoc (resolveApproximateLocation f o defaultLoc st).1).1,
      (resolveApproximateLocation f o defaultLoc st).2 ::
        (runApproximateCalls rest defaultLoc (resolveApproximateLocation f o defaultLoc st).1).2)

/-- When `pushNotification` reports delivery, the cooldown state records
the attempt's time and signature. -/
theorem pushNotification_true_state (status : String) (now : ℤ) (chOk : Bool)
    (title body sig : String) (st : CooldownState)
    (h : (pushNotification status now chOk title body sig st).1 = true) :
    (pushNotification status now chOk title body sig st).2 = ⟨now, some sig⟩ := by
  unfold pushNotification at h ⊢
  split_ifs at h ⊢
  simp_all

/-- When `pushNotification` reports no delivery, the cooldown state is
untouched. -/
theorem pushNotification_false_state (status : String) (now : ℤ) (chOk : Bool)
    (title body sig : String) (st : CooldownState)
    (h : (pushNotification status now chOk title body sig st).1 = false) :
    (pushNotification status now chOk title body sig st).2 = st := by
  unfold pushNotification at h ⊢
  split_ifs at h ⊢ <;> simp_all

/-- A throwing notification channel is caught and counts as not
delivered. -/
theorem pushNotification_channel_throw (status : String) (now : ℤ)
    (title body sig : String) (st : CooldownState) :
    (pushNotification status now false title body sig st).1 = false := by
  unfold pushNotification
  split_ifs <;> simp_all

/-- The cooldown gate of `pushNotification` in isolation: with permission
granted and a healthy channel, delivery fails exactly when the attempt is
inside the five-minute window since the last confirmed delivery and the
signature equals the last delivered one. -/
theorem pushNotification_false_iff (now : ℤ) (st : CooldownState)
    (title body sig : String) :
    (pushNotification "granted" now true title body sig st).1 = false ↔
      (now - st.timestamp ≤ ALERT_COOLDOWN_MS ∧ st.signature = some sig) := by
  unfold pushNotification
  rw [if_neg (by simp)]
  by_cases h : ¬(now - st.timestamp > ALERT_COOLDOWN_MS) ∧ st.signature = some sig
  · rw [if_pos h]
    simp only [not_lt] at h
    simpa using h
  · rw [if_neg h, if_pos rfl]
    simp only [not_lt] at h
    simpa using h

/-- C1: delivery is suppressed exactly when the attempt is within the
five-minute cooldown window of the last confirmed delivery and carries the
same signature — a different signature always bypasses the cooldown — and
in the scenario with threshold 150 and same-place readings
[120, 160, 162, 300] inside one window, exactly the readings 160 and 300
are delivered (120 is below the threshold, 162 shares the
value-divided-by-5 bucket of 160). -/
theorem c1_cooldown_suppression :
    (∀ (now : ℤ) (st : CooldownState) (title body sig : String),
      (pushNotification "granted" now true title body sig st).1 = false ↔
        (now - st.timestamp ≤ ALERT_COOLDOWN_MS ∧ st.signature = some sig)) ∧
    alertSignature "Station" 160 = alertSignature "Station" 162 ∧
    alertSignature "Station" 160 ≠ alertSignature "Station" 300 ∧
    (runAlertReadings "granted" 150 "Station" "obs"
        [(1000, 120), (2000, 160), (3000, 162), (4000, 300)] initialCooldown []).1 =
      [false, true, false, true] ∧
    ((runAlertReadings "granted" 150 "Station" "obs"
        [(1000, 120), (2000, 160), (3000, 162), (4000, 300)] initialCooldown []).2.2.map
      (fun r => r.aqi)) = [300, 160] :=
  ⟨pushNotification_false_iff, by decide, by decide, by decide, by decide⟩

/-- The direct path of `deriveAqiValue`: a finite, strictly positive
coerced `aqi` field is returned as is. -/
theorem deriveAqiValue_direct (d : StationData) (q : ℚ)
    (h : jsToNumber d.aqi = .finite q) (hpos : 0 < q) :
    deriveAqiValue d = some q := by
  unfold deriveAqiValue
  rw [h]
  exact if_pos hpos

/-- The fallback path of `deriveAqiValue`: when no finite positive direct
value exists, the result is the priority scan over the sub-indicators. -/
theorem deriveAqiValue_fallback (d : StationData)
    (h : ∀ q : ℚ, jsToNumber d.aqi = .finite q → q ≤ 0) :
    deriveAqiValue d = iaqiFallbackScan d.iaqi := by
  unfold deriveAqiValue
  cases hx : jsToNumber d.aqi with
  | finite q => exact if_neg (not_lt.mpr (h q hx))
  | nan => rfl
  | inf => rfl
  | negInf => rfl

/-- C2: `deriveAqiValue` returns the direct index exactly when its numeric
coercion is finite and strictly positive, otherwise falls through to the
priority scan over pm25, pm10, o3, no2, so2, co (each accepted only as a
finite number value, rounded half-up), and yields `none` exactly when both
paths fail; it is a total function.  The final conjunct shows the scan
skipping a numeric string and rounding 3.5 to 4. -/
theorem c2_deriveAqiValue_characterization :
    ∀ d : StationData,
      (∀ q : ℚ, jsToNumber d.aqi = .finite q → 0 < q → deriveAqiValue d = some q) ∧
      ((∀ q : ℚ, jsToNumber d.aqi = .finite q → q ≤ 0) →
        deriveAqiValue d = iaqiFallbackScan d.iaqi) ∧
      (deriveAqiValue d = none ↔
        ((∀ q : ℚ, jsToNumber d.aqi = .finite q → q ≤ 0) ∧
          iaqiFallbackScan d.iaqi = none)) ∧
      deriveAqiValue
        ⟨.num .nan, some [("pm25", .str "12"), ("pm10", .num (.finite (mkRat 7 2)))],
          none, none⟩ = some 4 := by
  intro d
  refine ⟨fun q hq hpos => deriveAqiValue_direct d q hq hpos,
    deriveAqiValue_fallback d, ?_, by decide⟩
  constructor
  · intro hnone
    have hall : ∀ q : ℚ, jsToNumber d.aqi = .finite q → q ≤ 0 := by
      intro q hq
      by_contra hpos
      rw [deriveAqiValue_direct d q hq (not_le.mp hpos)] at hnone
      cases hnone
    refine ⟨hall, ?_⟩
    rw [← deriveAqiValue_fallback d hall]
    exact hnone
  · rintro ⟨hall, hscan⟩
    rw [deriveAqiValue_fallback d hall, hscan]

/-- C3: the alert phase mutates state exactly on confirmed delivery — on
delivery the cooldown state records the attempt time and signature and the
new record is prepended with the log trimmed to five; on non-delivery
(including a throwing notification channel, `channelOk = false`) cooldown
state and log are unchanged; the log stays within five entries, newest
first. -/
theorem c3_alert_log_iff_delivered :
    ∀ (ns : String) (th : ℚ) (chOk : Bool) (now : ℤ) (label : String) (v : ℚ)
      (adv obs : String) (la : CooldownState) (log : List AlertRecord),
      ((alertStep ns th chOk now label v adv obs la log).1 = true →
        (alertStep ns th chOk now label v adv obs la log).2.1 =
          ⟨now, some (alertSignature label v)⟩ ∧
        (alertStep ns th chOk now label v adv obs la log).2.2 =
          (mkAlertRecord now label v obs th :: log).take 5 ∧
        (alertStep ns th chOk now label v adv obs la log).2.2.head? =
          some (mkAlertRecord now label v obs th) ∧
        (alertStep ns th chOk now label v adv obs la log).2.2.length ≤ 5) ∧
      ((alertStep ns th chOk now label v adv obs la log).1 = false →
        (alertStep ns th chOk now label v adv obs la log).2.1 = la ∧
        (alertStep ns th chOk now label v adv obs la log).2.2 = log) ∧
      (chOk = false → (alertStep ns th chOk now label v adv obs la log).1 = false) ∧
      (log.length ≤ 5 →
        (alertStep ns th chOk now label v adv obs la log).2.2.length ≤ 5) := by
  intro ns th chOk now label v adv obs la log
  by_cases helig : v ≥ th
  · have hstep : alertStep ns th chOk now label v adv obs la log =
        if (pushNotification ns now chOk "AQI Alert"
              (label ++ " AQI is " ++ toString v ++ ". " ++ adv)
              (alertSignature label v) la).1 then
          (true,
            (pushNotification ns now chOk "AQI Alert"
              (label ++ " AQI is " ++ toString v ++ ". " ++ adv)
              (alertSignature label v) la).2,
            (mkAlertRecord now label v obs th :: log).take 5)
        else
          (false,
            (pushNotification ns now chOk "AQI Alert"
              (label ++ " AQI is " ++ toString v ++ ". " ++ adv)
              (alertSignature label v) la).2,
            log) := by
      unfold alertStep
      rw [if_pos helig]
    by_cases hp : (pushNotification ns now chOk "AQI Alert"
        (label ++ " AQI is " ++ toString v ++ ". " ++ adv)
        (alertSignature label v) la).1 = true
    · rw [hstep, if_pos hp]
      refine ⟨?_, ?_, ?_, ?_⟩
      · intro _
        refine ⟨pushNotification_true_state _ _ _ _ _ _ _ hp, rfl, ?_, ?_⟩
        · simp [List.take]
        · simp [List.length_take]
      · intro hfalse
        cases hfalse
      · intro hch
        rw [hch] at hp
        exact absurd hp (by simp [pushNotification_channel_throw])
      · intro _
        simp [List.length_take]
    · rw [hstep, if_neg hp]
      have hp' : (pushNotification ns now chOk "AQI Alert"
          (label ++ " AQI is " ++ toString v ++ ". " ++ adv)
          (alertSignature label v) la).1 = false := by
        cases hb : (pushNotification ns now chOk "AQI Alert"
            (label ++ " AQI is " ++ toString v ++ ". " ++ adv)
            (alertSignature label v) la).1
        · rfl
        · exact absurd hb hp
      refine ⟨?_, ?_, ?_, ?_⟩
      · intro htrue
        cases htrue
      · intro _
        exact ⟨pushNotification_false_state _ _ _ _ _ _ _ hp', rfl⟩
      · intro _
        rfl
      · intro hlen
        simpa using hlen
  · have hstep : alertStep ns th chOk now label v adv obs la log = (false, la, log) := by
      unfold alertStep
      rw [if_neg helig]
    rw [hstep]
    refine ⟨?_, ?_, ?_, ?_⟩
    · intro htrue
      cases htrue
    · intro _
      exact ⟨rfl, rfl⟩
    · intro _
      rfl
    · intro hlen
      simpa using hlen

/-- C9: with notification permission anything other than granted,
`pushNotification` returns false with the cooldown state untouched — for
every cooldown state, so before any cooldown or signature consideration —
and consequently the alert phase of a reading at or above the threshold
leaves both the cooldown state and the alert log unchanged. -/
theorem c9_permission_gate (status : String) (now : ℤ) (chOk : Bool)
    (title body sig : String) (st : CooldownState) (th v : ℚ)
    (label adv obs : String) (la : CooldownState) (log : List AlertRecord)
    (hstatus : status ≠ "granted") :
    pushNotification status now chOk title body sig st = (false, st) ∧
    alertStep status th chOk now label v adv obs la log = (false, la, log) := by
  constructor
  · unfold pushNotification
    simp [hstatus]
  · unfold alertStep pushNotification
    by_cases helig : v ≥ th <;> simp [helig, hstatus]

/-- Witness for C9 at a concrete denied-permission attempt. -/
theorem c9_permission_gate_witness :
    pushNotification "denied" 7 true "AQI Alert" "body" "sig" initialCooldown =
      (false, initialCooldown) :=
  (c9_permission_gate "denied" 7 true "AQI Alert" "body" "sig" initialCooldown
    150 200 "Station" "adv" "obs" initialCooldown [] (by decide)).1

/-- C7 counterexample: a reading of value 40 with the threshold set to 40
(so a threshold that is at most 40) is eligible and, with permission
granted, a fresh cooldown state and a healthy channel, the alert is
delivered and logged — refuting the claim that value 40 never alerts for
thresholds up to 40. -/
theorem c7_counterexample :
    (alertStep "granted" 40 true 1 "Home" 40 "adv" "obs" initialCooldown []).1 = true ∧
    ((alertStep "granted" 40 true 1 "Home" 40 "adv" "obs" initialCooldown []).2.2.map
      (fun r => r.aqi)) = [40] := by
  decide

/-- C7 (amended): the advisory mapping uses inclusive upper bounds — ≤50
good, ≤100 moderate, ≤150 sensitive-caution, ≤200 unhealthy, ≤300
very-unhealthy, >300 hazardous — each tier mapping to its fixed advisory
text, prevention text and color; a reading of 40 yields the good tier and
the good-tier color, and no alert is delivered for value 40 with any
threshold strictly above 40 (in particular for every threshold selectable
in the UI, all of which are at least 50). -/
theorem c7_advisory_tiers :
    ∀ v : ℚ,
      (v ≤ 50 → healthAdvice v =
        ("Air quality is good. No precautions needed.", "Stay active outdoors.", "#2ecc71")) ∧
      (50 < v → v ≤ 100 → healthAdvice v =
        ("Moderate air quality. Sensitive groups should take caution.",
          "Limit prolonged outdoor activity if you have respiratory issues.", "#f1c40f")) ∧
      (100 < v → v ≤ 150 → healthAdvice v =
        ("Unhealthy for sensitive groups.",
          "Reduce outdoor activity. Use mask if needed.", "#e67e22")) ∧
      (150 < v → v ≤ 200 → healthAdvice v =
        ("Unhealthy.",
          "Avoid outdoor activity. People with health issues should stay indoors.", "#e74c3c")) ∧
      (200 < v → v ≤ 300 → healthAdvice v =
        ("Very Unhealthy.", "Stay indoors. Wear N95 masks if you go outside.", "#8e44ad")) ∧
      (300 < v → healthAdvice v =
        ("Hazardous!", "Avoid all outdoor activity. Keep windows closed.", "#34495e")) ∧
      healthAdvice 40 =
        ("Air quality is good. No precautions needed.", "Stay active outdoors.", "#2ecc71") ∧
      (∀ th : ℚ, 40 < th →
        ∀ (ns : String) (chOk : Bool) (now : ℤ) (label adv obs : String)
          (la : CooldownState) (log : List AlertRecord),
          alertStep ns th chOk now label 40 adv obs la log = (false, la, log)) := by
  intro v
  refine ⟨?_, ?_, ?_, ?_, ?_, ?_, by norm_num [healthAdvice], ?_⟩
  · intro h1
    unfold healthAdvice
    rw [if_pos h1]
  · intro h1 h2
    unfold healthAdvice
    rw [if_neg (by linarith), if_pos h2]
  · intro h1 h2
    unfold healthAdvice
    rw [if_neg (by linarith), if_neg (by linarith), if_pos h2]
  · intro h1 h2
    unfold healthAdvice
    rw [if_neg (by linarith), if_neg (by linarith), if_neg (by linarith), if_pos h2]
  · intro h1 h2
    unfold healthAdvice
    rw [if_neg (by linarith), if_neg (by linarith), if_neg (by linarith),
      if_neg (by linarith), if_pos h2]
  · intro h1
    unfold healthAdvice
    rw [if_neg (by linarith), if_neg (by linarith), if_neg (by linarith),
      if_neg (by linarith), if_neg (by linarith)]
  · intro th hth ns chOk now label adv obs la log
    unfold alertStep
    rw [if_neg (not_le.mpr hth)]

/-- The second guard of `fetchAqi` (empty city with coordinates not in
use) can never fire: not using coordinates already means a city was
entered. -/
theorem fetchGuard2_false (opts : FetchOptions) (st : AppState) :
    (!fetchShouldUseGeo opts st && decide (st.city = "")) = false := by
  unfold fetchShouldUseGeo
  by_cases hc : st.city = "" <;> simp [hc]

/-- With no usable target, `fetchAqi` returns before any network call:
state unchanged, at most a user-facing prompt. -/
theorem fetchAqiStep_noTarget (opts : FetchOptions) (env : FetchEnv) (st : AppState)
    (hguard : (fetchShouldUseGeo opts st && (fetchGeoTarget opts st).isNone) = true) :
    fetchAqiStep opts env st =
      (st, if opts.source = "manual" then [.promptAlert] else []) := by
  unfold fetchAqiStep
  rw [if_pos hguard]

/-- With a usable target but a non-`ok` provider status, `fetchAqi` signals
the not-found condition and returns the state unchanged. -/
theorem fetchAqiStep_not_ok (opts : FetchOptions) (env : FetchEnv) (st : AppState)
    (res : ApiResponse) (hres : env.response = some res) (hstat : res.status ≠ "ok")
    (hguard : (fetchShouldUseGeo opts st && (fetchGeoTarget opts st).isNone) = false) :
    fetchAqiStep opts env st = (st, [.notFoundAlert]) := by
  unfold fetchAqiStep
  rw [if_neg (by simp [hguard]), if_neg (by simp [fetchGuard2_false]), hres]
  simp only
  rw [if_pos hstat]

/-- C4: whenever the provider response status is not `ok`, the reading
cycle leaves the whole component state unchanged — displayed AQI, advisory
fields, history, alert log, cooldown state, location state — signals only
the not-found condition when the request was actually issued, and performs
no alert evaluation, no history append and no persistence write. -/
theorem c4_provider_error_frame (opts : FetchOptions) (env : FetchEnv) (st : AppState)
    (res : ApiResponse) (hres : env.response = some res) (hstat : res.status ≠ "ok") :
    (fetchAqiStep opts env st).1 = st ∧
    (∀ b, FetchEvent.alertEvaluated b ∉ (fetchAqiStep opts env st).2) ∧
    FetchEvent.historyAppend ∉ (fetchAqiStep opts env st).2 ∧
    (∀ ok, FetchEvent.persistWrite ok ∉ (fetchAqiStep opts env st).2) ∧
    ((fetchShouldUseGeo opts st && (fetchGeoTarget opts st).isNone) = false →
      (fetchAqiStep opts env st).2 = [FetchEvent.notFoundAlert]) := by
  by_cases hguard : (fetchShouldUseGeo opts st && (fetchGeoTarget opts st).isNone) = true
  · rw [fetchAqiStep_noTarget opts env st hguard]
    by_cases hm : opts.source = "manual" <;>
      simp [hm, hguard]
  · have hguard' : (fetchShouldUseGeo opts st && (fetchGeoTarget opts st).isNone) = false := by
      cases h : fetchShouldUseGeo opts st && (fetchGeoTarget opts st).isNone
      · rfl
      · exact absurd h hguard
    rw [fetchAqiStep_not_ok opts env st res hres hstat hguard']
    simp

/-- C5: a ranking refresh over any candidate list returns exactly one entry
per candidate whose fetch both succeeded and produced a derivable value —
`N − K` entries when `K` of `N` candidates fail — sorted ascending by
value; entries with an absent value are excluded outright, and every
successful candidate appears (one city's failure never aborts the batch). -/
theorem c5_ranking_aggregator (fetch : String → Option ApiResponse)
    (candidates : List String) :
    (fetchCityRankings fetch candidates).length =
      candidates.length -
        candidates.countP (fun c => (rankCity fetch c).aqi = none) ∧
    List.Pairwise (fun a b => rankingValue a ≤ rankingValue b)
      (fetchCityRankings fetch candidates) ∧
    (∀ e ∈ fetchCityRankings fetch candidates, e.aqi ≠ none) ∧
    (∀ c ∈ candidates, (rankCity fetch c).aqi ≠ none →
      rankCity fetch c ∈ fetchCityRankings fetch candidates) := by
  refine ⟨?_, ?_, ?_, ?_⟩
  · unfold fetchCityRankings
    rw [List.length_mergeSort, ← List.countP_eq_length_filter, List.countP_map]
    have hsum := List.length_eq_countP_add_countP
      (fun c => decide ((rankCity fetch c).aqi = none)) candidates
    have hcongr : List.countP
        ((fun e : RankingEntry => decide (e.aqi ≠ none)) ∘ rankCity fetch) candidates =
        List.countP
          (fun a => decide (¬decide ((rankCity fetch a).aqi = none) = true)) candidates := by
      apply List.countP_congr
      intro a _
      by_cases h : (rankCity fetch a).aqi = none <;> simp [h]
    rw [hcongr]
    omega
  · unfold fetchCityRankings
    have hs := @List.sorted_mergeSort RankingEntry
      (fun a b : RankingEntry => decide (rankingValue a ≤ rankingValue b))
      (fun a b c hab hbc => by
        simp only [decide_eq_true_eq] at hab hbc ⊢
        exact le_trans hab hbc)
      (fun a b => by
        by_cases h : rankingValue a ≤ rankingValue b
        · simp [h]
        · simp [h, le_of_not_le h])
      ((candidates.map (rankCity fetch)).filter fun e => e.aqi ≠ none)
    exact hs.imp fun hab => of_decide_eq_true hab
  · intro e he
    unfold fetchCityRankings at he
    rw [List.mem_mergeSort] at he
    have := (List.mem_filter.mp he).2
    simpa using this
  · intro c hc hval
    unfold fetchCityRankings
    rw [List.mem_mergeSort, List.mem_filter]
    exact ⟨List.mem_map_of_mem (rankCity fetch) hc, by simpa using hval⟩

/-- A prior cached point for the C6 counterexample, at the origin. -/
def c6cacheStart : Option PlacenameCache := some ⟨0, 0, "cached label"⟩

/-- A point 0.0009° from the cached one (a cache hit). -/
def c6P : Coords := ⟨9 / 10000, 0⟩

/-- A point 0.0009° from `c6P` but 0.0018° from the cached one. -/
def c6Q : Coords := ⟨18 / 10000, 0⟩

/-- C6 counterexample: with an existing cached point, resolving `c6P`
(within the threshold of the cache) is a hit that leaves the cache on the
old point, so resolving `c6Q` — within the threshold of `c6P` on both axes
— still performs an external call: the claimed property fails when the
resolution of P was itself a cache hit on an older nearby point. -/
theorem c6_counterexample :
    (|c6P.lat - c6Q.lat| < 1 / 1000 ∧ |c6P.lng - c6Q.lng| < 1 / 1000) ∧
    (resolvePlacename (some c6P) .failed c6cacheStart).externalCall = false ∧
    (resolvePlacename (some c6Q) .failed
      (resolvePlacename (some c6P) .failed c6cacheStart).cache).externalCall = true := by
  have hr1 : resolvePlacename (some c6P) .failed c6cacheStart =
      ⟨some ⟨0, 0, "cached label"⟩, "cached label", false⟩ := by
    show resolvePlacename (some c6P) .failed (some ⟨0, 0, "cached label"⟩) = _
    simp only [resolvePlacename]
    rw [if_pos (by norm_num [abs_sub_lt_iff, abs_lt, c6P])]
  have hr2 : resolvePlacename (some c6Q) .failed (some ⟨0, 0, "cached label"⟩) =
      resolvePlacenameFresh c6Q .failed := by
    simp only [resolvePlacename]
    rw [if_neg (by norm_num [abs_sub_lt_iff, abs_lt, le_abs, c6Q])]
  refine ⟨by norm_num [abs_sub_lt_iff, abs_lt, c6P, c6Q], ?_, ?_⟩
  · rw [hr1]
  · rw [hr1, hr2]
    rfl

/-- C6 (amended): provided resolving `P` actually stored `P` in the cache —
the prior cache was empty or beyond the reuse threshold from `P` — any
later resolution at a point within 0.001° of `P` on both axes performs no
external call and returns `P`'s label unchanged; moreover a failed or
unavailable geocode at `P` produces the coordinate-formatted label (cached
like any other), and the unavailable case makes no external call at all,
so a repeated failure at the same spot does not retry the collaborator. -/
theorem c6_geocode_cache_amended (P Q : Coords) (geo1 geo2 : GeoOutcome)
    (cache0 : Option PlacenameCache)
    (hmiss : ∀ prev, cache0 = some prev →
      ¬(|prev.lat - P.lat| < 1 / 1000 ∧ |prev.lng - P.lng| < 1 / 1000))
    (hnear : |P.lat - Q.lat| < 1 / 1000 ∧ |P.lng - Q.lng| < 1 / 1000) :
    resolvePlacename (some Q) geo2 (resolvePlacename (some P) geo1 cache0).cache =
      ⟨(resolvePlacename (some P) geo1 cache0).cache,
        (resolvePlacename (some P) geo1 cache0).label, false⟩ ∧
    ((geo1 = .failed ∨ geo1 = .unavailable) →
      (resolvePlacename (some P) geo1 cache0).label = coordFallbackLabel P) ∧
    (geo1 = .unavailable →
      (resolvePlacename (some P) geo1 cache0).externalCall = false) := by
  have hfresh : resolvePlacename (some P) geo1 cache0 = resolvePlacenameFresh P geo1 := by
    cases cache0 with
    | none => rfl
    | some prev =>
      simp only [resolvePlacename]
      rw [if_neg (hmiss prev rfl)]
  have hcache : (resolvePlacenameFresh P geo1).cache =
      some ⟨P.lat, P.lng, (resolvePlacenameFresh P geo1).label⟩ := by
    cases geo1 <;> rfl
  refine ⟨?_, ?_, ?_⟩
  · rw [hfresh, hcache]
    simp only [resolvePlacename]
    rw [if_pos (by simpa using hnear)]
  · rintro (h | h) <;> rw [hfresh, h] <;> rfl
  · intro h
    rw [hfresh, h]
    rfl

/-- Witness for C6 at a concrete input: from an empty cache, a failed
geocode at the origin caches the fallback pair, and resolving the origin
again performs no external call and returns the same label. -/
theorem c6_geocode_cache_witness :
    resolvePlacename (some ⟨0, 0⟩) .failed (resolvePlacename (some ⟨0, 0⟩) .failed none).cache =
      ⟨(resolvePlacename (some ⟨0, 0⟩) .failed none).cache,
        (resolvePlacename (some ⟨0, 0⟩) .failed none).label, false⟩ :=
  (c6_geocode_cache_amended ⟨0, 0⟩ ⟨0, 0⟩ .failed .failed none
    (fun prev h => by cases h) (by norm_num)).1

/-- A neutral initial component state with notifications granted and the
default threshold of 150, used by the concrete runs below. -/
def sampleState : AppState :=
  { city := "", aqi := none, advice := "", prevention := "", color := "#2ecc71",
    history := [], lastUpdated := "Awaiting data", location := none,
    locationStatus := "Idle", locationLabel := "Awaiting live location…",
    lastAlert := initialCooldown, alertLog := [], alertThreshold := 150,
    notificationStatus := "granted", chartData := none, pollutantChart := none }

/-- A successful provider payload: direct index 160, a named station. -/
def okData : StationData :=
  ⟨.num (.finite 160), none, some ⟨"Test Station", .undefV, .undefV⟩,
    some "2025-01-01 10:00"⟩

/-- An `ok` provider response around `okData`. -/
def okResponse : ApiResponse := ⟨"ok", okData⟩

/-- A failing provider response (status not `ok`). -/
def errorResponse : ApiResponse := ⟨"error", ⟨.undefV, none, none, none⟩⟩

/-- An automatic, coordinate-forced fetch call. -/
def autoOpts : FetchOptions := ⟨"auto", true, some ⟨1, 2⟩⟩

/-- A manual fetch call with no override. -/
def manualOpts : FetchOptions := ⟨"manual", false, none⟩

/-- A collaborator environment for a fully successful cycle. -/
def c8Env : FetchEnv := ⟨some okResponse, 1000, "now", [30, 40], "r1", true, true⟩

/-- A collaborator environment whose provider response has a non-`ok`
status. -/
def c4Env : FetchEnv := ⟨some errorResponse, 1000, "now", [30, 40], "r1", true, true⟩

/-- Witness for C4 at a concrete input: a manual city fetch answered with a
non-`ok` status leaves the state untouched. -/
theorem c4_provider_error_frame_witness :
    (fetchAqiStep manualOpts c4Env { sampleState with city := "Delhi" }).1 =
      { sampleState with city := "Delhi" } :=
  (c4_provider_error_frame manualOpts c4Env { sampleState with city := "Delhi" }
    errorResponse rfl (by decide)).1

/-- C8 counterexample: in a concrete fully successful reading cycle, the
awaited persistence write occurs strictly before the history append in the
emitted effect trace, refuting the claim that all local state updates —
including the history append — happen before the persistence write. -/
theorem c8_counterexample :
    (fetchAqiStep autoOpts c8Env sampleState).2 =
      [.derived (some 160), .displayUpdated, .alertEvaluated true,
       .persistWrite true, .historyAppend, .chartUpdate] ∧
    (fetchAqiStep autoOpts c8Env sampleState).2.findIdx
        (fun e => match e with | FetchEvent.persistWrite _ => true | _ => false) <
      (fetchAqiStep autoOpts c8Env sampleState).2.findIdx
        (fun e => match e with | FetchEvent.historyAppend => true | _ => false) := by
  decide

/-- C8 (amended): in every successful reading cycle the effect order is
value derivation, then the advisory/display updates, then (for manual
calls) the announcement, then alert evaluation, then the awaited
persistence write, and only after it the history append and the chart
updates; the persistence outcome is swallowed — the resulting state is
identical whether the write succeeds or fails, so a failure never surfaces
to the caller nor prevents the history append. -/
theorem c8_effect_order_amended (opts : FetchOptions) (env : FetchEnv)
    (st : AppState) (res : ApiResponse) (v : ℚ)
    (hres : env.response = some res) (hstat : res.status = "ok")
    (hval : deriveAqiValue res.data = some v)
    (hguard : (fetchShouldUseGeo opts st && (fetchGeoTarget opts st).isNone) = false) :
    (∃ n : Bool,
      (fetchAqiStep opts env st).2 =
        [FetchEvent.derived (some v), FetchEvent.displayUpdated] ++
          (if opts.source = "manual" then [FetchEvent.announce] else []) ++
          [FetchEvent.alertEvaluated n, FetchEvent.persistWrite env.persistOk,
            FetchEvent.historyAppend, FetchEvent.chartUpdate]) ∧
    (fetchAqiStep opts { env with persistOk := true } st).1 =
      (fetchAqiStep opts { env with persistOk := false } st).1 := by
  have hg1 : ¬((fetchShouldUseGeo opts st && (fetchGeoTarget opts st).isNone) = true) := by
    simp only [hguard]
    exact Bool.false_ne_true
  have hg2 : ¬((!fetchShouldUseGeo opts st && decide (st.city = "")) = true) := by
    simp only [fetchGuard2_false]
    exact Bool.false_ne_true
  have hs : ¬(res.status ≠ "ok") := by
    simp [hstat]
  constructor
  · unfold fetchAqiStep
    rw [if_neg hg1, if_neg hg2, hres]
    simp only
    rw [if_neg hs, hval]
    exact ⟨_, rfl⟩
  · obtain ⟨resp, now0, nows, rs, rid, ch, p⟩ := env
    obtain rfl : resp = some res := hres
    unfold fetchAqiStep
    rw [if_neg hg1, if_neg hg2, if_neg hg1, if_neg hg2]
    simp only
    rw [if_neg hs, if_neg hs, hval]

/-- Witness for C8 at the concrete successful cycle: the state is the same
whether the Firestore write succeeds or fails. -/
theorem c8_effect_order_witness :
    (fetchAqiStep autoOpts { c8Env with persistOk := true } sampleState).1 =
      (fetchAqiStep autoOpts { c8Env with persistOk := false } sampleState).1 :=
  (c8_effect_order_amended autoOpts c8Env sampleState okResponse 160 rfl rfl
    (by decide) (by decide)).2

/-- C10: the IP-fallback single-flight guard is set by every run and reset
only by the failure path — after a successful run the guard is up, every
later non-forced invocation is a no-op that changes nothing and never runs
the fallback (for arbitrarily long sequences of such invocations), and only
a forced invocation runs it again. -/
theorem c10_single_flight :
    (∀ (force : Bool) (lat lng : ℚ) (parts : List String) (d : Coords) (st : IpState),
      ((resolveApproximateLocation force (.ok lat lng parts) d st).1).guard = true) ∧
    (∀ (outcome : IpOutcome) (d : Coords) (st : IpState), st.guard = true →
      resolveApproximateLocation false outcome d st = (st, false)) ∧
    (∀ (calls : List (Bool × IpOutcome)) (d : Coords) (st : IpState),
      st.guard = true → (∀ p ∈ calls, p.1 = false) →
      runApproximateCalls calls d st = (st, calls.map fun _ => false)) ∧
    (∀ (outcome : IpOutcome) (d : Coords) (st : IpState),
      (resolveApproximateLocation true outcome d st).2 = true) ∧
    (∀ (force : Bool) (d : Coords) (st : IpState),
      st.guard = false ∨ force = true →
      ((resolveApproximateLocation force .failed d st).1).guard = false) := by
  have hskip : ∀ (outcome : IpOutcome) (d : Coords) (st : IpState), st.guard = true →
      resolveApproximateLocation false outcome d st = (st, false) := by
    intro outcome d st hg
    unfold resolveApproximateLocation
    rw [if_pos (by simp [hg])]
  refine ⟨?_, hskip, ?_, ?_, ?_⟩
  · intro force lat lng parts d st
    unfold resolveApproximateLocation
    by_cases hg : (st.guard && !force) = true
    · rw [if_pos hg]
      exact (Bool.and_eq_true _ _).mp hg |>.1
    · rw [if_neg hg]
  · intro calls
    induction calls with
    | nil =>
      intro d st _ _
      rfl
    | cons hd tl ih =>
      intro d st hg hall
      obtain ⟨f, o⟩ := hd
      have hf : f = false := hall (f, o) (List.mem_cons_self _ _)
      subst hf
      have htl := ih d st hg fun p hp => hall p (List.mem_cons_of_mem _ hp)
      unfold runApproximateCalls
      rw [hskip o d st hg]
      simp only [htl, List.map_cons]
  · intro outcome d st
    unfold resolveApproximateLocation
    rw [if_neg (by simp)]
    cases outcome <;> rfl
  · intro force d st h
    unfold resolveApproximateLocation
    rw [if_neg (by rcases h with h | h <;> simp [h])]

end AirQuality
